import Mathlib

/-!
Shallow embedding of the trading-api-server gateway (src/src/main.rs).

The program is an axum HTTP gateway in front of a gRPC order-matching
engine.  The embedding below translates the request translators, the
response mappers, the per-handler metrics effects, the metrics registry
wiring and the startup sequencing of `main` into pure Lean functions.
Rust `u32` values are modelled as `Nat` (the handlers perform no
arithmetic on them other than comparison with 0, so no wrap-around can
occur).  A Rust `Option::unwrap()` panic is modelled by returning `none`
from the enclosing function.  Wall-clock latency values are real-time
quantities and are not modelled; the label values and the counter, which
the claims are about, are.
-/

namespace TradingApiServer

/-! ## HTTP inbound DTOs (main.rs lines 190-196, 212-218, 233-236, 251-255) -/

/-- Inbound body of `POST /new` (struct `NewOrder`, main.rs 190-196). -/
structure NewOrder where
  price : Option Nat
  quantity : Nat
  is_buy_side : Bool
  security_name : String
deriving DecidableEq

/-- Inbound body of `POST /modify` (struct `ModifyOrder`, main.rs 212-218). -/
structure ModifyOrder where
  order_id : String
  new_price : Option Nat
  new_quantity : Option Nat
  is_buy_side : Bool
deriving DecidableEq

/-- Inbound body of `POST /cancel` (struct `CancelOrder`, main.rs 233-236). -/
structure CancelOrder where
  order_id : String
deriving DecidableEq

/-- Inbound body of `GET /depth` (struct `DepthReq`, main.rs 251-255). -/
structure DepthReq where
  security_name : String
  level_count : Option Nat
deriving DecidableEq

/-! ## HTTP outbound DTOs (main.rs 198-204, 220-225, 238-243, 257-261) -/

/-- Response body of `POST /new` (struct `NewOrderRes`, main.rs 198-204). -/
structure NewOrderRes where
  order_id : String
  status : Nat
  order_index : Option Nat
  cause : Option String
deriving DecidableEq

/-- Response body of `POST /modify` (struct `ModifyOrderRes`, main.rs 220-225). -/
structure ModifyOrderRes where
  order_id : String
  status : Nat
  output : Option String
deriving DecidableEq

/-- Response body of `POST /cancel` (struct `CancelOrderRes`, main.rs 238-243). -/
structure CancelOrderRes where
  order_id : String
  status : Nat
  output : Option String
deriving DecidableEq

/-- Response body of `GET /depth` (struct `DepthRes`, main.rs 257-261). -/
structure DepthRes where
  status : Nat
  output : String
deriving DecidableEq

/-! ## RPC records of the external `orderbook_proto` crate, with exactly the
fields the gateway reads or writes (main.rs 84-91, 110-115, 129-131,
152-157, 160-181, 206-210, 227-231, 245-249). -/

/-- `orderbook_proto::orders::OrderType`; the gateway only ever uses the
`Market` variant (main.rs 90: `order_type : OrderType::Market as i32`). -/
inductive OrderType where
  | market
  | limit
deriving DecidableEq

/-- RPC request record for submit (fields as built at main.rs 84-91). -/
structure NewOrderRequest where
  user_id : Option Nat
  price : Option Nat
  quantity : Nat
  is_buy_side : Bool
  security_name : String
  order_type : OrderType
deriving DecidableEq

/-- RPC response record for submit (fields read at main.rs 206-210). -/
structure NewOrderResponse where
  order_id : String
  status : Nat
  order_index : Option Nat
  cause : Option String
deriving DecidableEq

/-- RPC request record for modify (fields as built at main.rs 110-115). -/
structure ModifyOrderRequest where
  order_id : String
  new_price : Option Nat
  new_quantity : Option Nat
  side : Bool
deriving DecidableEq

/-- RPC response record for modify (fields read at main.rs 227-231). -/
structure ModifyOrderResponse where
  order_id : String
  status : Nat
  output : Option String
deriving DecidableEq

/-- RPC request record for cancel (fields as built at main.rs 129-131). -/
structure CancelOrderRequest where
  order_id : String
deriving DecidableEq

/-- RPC response record for cancel (fields read at main.rs 245-249);
note the response carries `cause`, which the mapper copies into the
DTO field named `output`. -/
structure CancelOrderResponse where
  order_id : String
  status : Nat
  cause : Option String
deriving DecidableEq

/-- One price level of the returned book (fields read at main.rs 164-169). -/
structure Level where
  price : Nat
  quantity : Nat
deriving DecidableEq

/-- The book payload (fields `ask_depth`, `bid_depth` read at main.rs 164-169). -/
structure Book where
  ask_depth : List Level
  bid_depth : List Level
deriving DecidableEq

/-- RPC request record for depth (fields as built at main.rs 152-155). -/
structure BookRequest where
  security_name : String
  level_count : Option Nat
deriving DecidableEq

/-- RPC response record for depth; the gateway reads only `book_depth`
(main.rs 157). -/
structure BookResponse where
  book_depth : Option Book
deriving DecidableEq

/-! ## Request translators -/

/-- The sentinel normalization `if field.unwrap() == 0 { None } else { field }`
applied by `modify_order` (main.rs 107-108) and `depth` (main.rs 147-151).
`field.unwrap()` panics when the field is absent, modelled by the outer
`none`. -/
def normalize_sentinel (field : Option Nat) : Option (Option Nat) :=
  match field with
  | some v => some (if v = 0 then none else some v)
  | none => none

/-- Translation step of `new_order` (main.rs 84-91): the inbound price is
forwarded verbatim (no sentinel normalization) and the order type is
always `Market`. -/
def new_order_translate (req : NewOrder) : NewOrderRequest :=
  { user_id := none
    price := req.price
    quantity := req.quantity
    is_buy_side := req.is_buy_side
    security_name := req.security_name
    order_type := OrderType.market }

/-- Translation step of `modify_order` (main.rs 106-115): both optional
fields are unwrapped (panicking if absent) and 0-normalized, evaluation
order new_price then new_quantity. -/
def modify_order_translate (req : ModifyOrder) : Option ModifyOrderRequest := do
  let new_price ← normalize_sentinel req.new_price
  let new_quantity ← normalize_sentinel req.new_quantity
  pure { order_id := req.order_id
         new_price := new_price
         new_quantity := new_quantity
         side := req.is_buy_side }

/-- Translation step of `cancel_order` (main.rs 129-131): pure passthrough. -/
def cancel_order_translate (req : CancelOrder) : CancelOrderRequest :=
  { order_id := req.order_id }

/-- Translation step of `depth` (main.rs 147-155): level_count is unwrapped
(panicking if absent) and 0-normalized. -/
def depth_translate (req : DepthReq) : Option BookRequest := do
  let level_count ← normalize_sentinel req.level_count
  pure { security_name := req.security_name
         level_count := level_count }

/-! ## Response mappers (the `From` impls) -/

/-- `impl From<NewOrderResponse> for NewOrderRes` (main.rs 206-210). -/
def NewOrderRes.fromResponse (value : NewOrderResponse) : NewOrderRes :=
  { order_id := value.order_id
    status := value.status
    order_index := value.order_index
    cause := value.cause }

/-- `impl From<ModifyOrderResponse> for ModifyOrderRes` (main.rs 227-231). -/
def ModifyOrderRes.fromResponse (value : ModifyOrderResponse) : ModifyOrderRes :=
  { order_id := value.order_id
    status := value.status
    output := value.output }

/-- `impl From<CancelOrderResponse> for CancelOrderRes` (main.rs 245-249):
the DTO field `output` is sourced from the RPC field `cause`. -/
def CancelOrderRes.fromResponse (value : CancelOrderResponse) : CancelOrderRes :=
  { order_id := value.order_id
    status := value.status
    output := value.cause }

/-- The two-outcome response mapping of the `depth` handler body
(main.rs 160-181, the `match book_depth` returning the JSON body). -/
def depth_response (book_depth : Option Book) : DepthRes :=
  match book_depth with
  | some _ => { status := 200, output := "book recieved" }
  | none => { status := 400, output := "orderbook is empty" }

/-- The label values recorded into DEPTH_TOTAL_DURATION by the `depth`
handler (main.rs 162 and 177): security name plus 200 or 400 according
to book presence. -/
def depth_outcome_label (security_name : String) (book_depth : Option Book) :
    String × String :=
  match book_depth with
  | some _ => (security_name, toString (200 : Nat))
  | none => (security_name, toString (400 : Nat))

/-! ## Metric collector descriptors (the `lazy_static` block, main.rs 12-46).
The bucket boundaries are the f64 literals 1.0, 5.0, 10.0, 25.0, 50.0,
100.0, all integral, modelled as naturals. -/

/-- `prometheus::HistogramOpts`: name, help text and bucket boundaries. -/
structure HistogramOpts where
  name : String
  help : String
  buckets : List Nat
deriving DecidableEq

/-- `prometheus::HistogramVec`: options plus the label-name dimensions. -/
structure HistogramVec where
  opts : HistogramOpts
  label_names : List String
deriving DecidableEq

/-- `prometheus::IntCounter`: name and help text. -/
structure IntCounter where
  name : String
  help : String
deriving DecidableEq

/-- Static descriptor NEW_ORDER_TOTAL_DURATION (main.rs 13-19). -/
def NEW_ORDER_TOTAL_DURATION : HistogramVec :=
  { opts := { name := "new_order_total_duration_ms"
              help := "total time from http request to response for new order"
              buckets := [1, 5, 10, 25, 50, 100] }
    label_names := ["order-type", "status"] }

/-- Static descriptor CANCEL_ORDER_TOTAL_DURATION (main.rs 21-27). -/
def CANCEL_ORDER_TOTAL_DURATION : HistogramVec :=
  { opts := { name := "cancel_order_total_duration_ms"
              help := "total time from http request to response for cancel order"
              buckets := [1, 5, 10, 25, 50, 100] }
    label_names := ["status"] }

/-- Static descriptor MODIFY_ORDER_TOTAL_DURATION (main.rs 29-35). -/
def MODIFY_ORDER_TOTAL_DURATION : HistogramVec :=
  { opts := { name := "modify_order_total_duration_ms"
              help := "total time from http request to response for modify order"
              buckets := [1, 5, 10, 25, 50, 100] }
    label_names := ["status"] }

/-- Static descriptor DEPTH_TOTAL_DURATION (main.rs 37-43). -/
def DEPTH_TOTAL_DURATION : HistogramVec :=
  { opts := { name := "depth_total_duration_ms"
              help := "total time from http request to response for depth"
              buckets := [1, 5, 10, 25, 50, 100] }
    label_names := ["asset_name", "status"] }

/-- Static descriptor REQUEST_COUNTER (main.rs 45). -/
def REQUEST_COUNTER : IntCounter :=
  { name := "request_counter", help := "total no of requests" }

/-- The names of the five metric families the gateway records into. -/
def gateway_metric_family_names : List String :=
  [NEW_ORDER_TOTAL_DURATION.opts.name,
   CANCEL_ORDER_TOTAL_DURATION.opts.name,
   MODIFY_ORDER_TOTAL_DURATION.opts.name,
   DEPTH_TOTAL_DURATION.opts.name,
   REQUEST_COUNTER.name]

/-! ## Dynamic metrics state.  Each handler records one latency observation
(modelled by the label values it is recorded under; the observed duration
itself is wall-clock time and not modelled) and bumps the global request
counter. -/

/-- The process-wide mutable metric state touched by the handlers:
the value of REQUEST_COUNTER and, per histogram family, the list of label
values observed into it so far. -/
structure MetricsState where
  request_counter : Nat
  new_order_observations : List (String × String)
  modify_observations : List String
  cancel_observations : List String
  depth_observations : List (String × String)
deriving DecidableEq

/-- The metric state at process start: counter 0, no observations. -/
def MetricsState.initial : MetricsState :=
  { request_counter := 0
    new_order_observations := []
    modify_observations := []
    cancel_observations := []
    depth_observations := [] }

/-! ## Handlers.  Each handler is embedded as a function of the inbound
request, the backend (the RPC round trip, modelled as a function from
request record to response record, i.e. the call resolves), and the
metric state before the request; it yields the JSON response body and
the metric state after.  Handlers whose translation can panic return
`none` in the panicking case. -/

/-- Handler of `POST /new` (main.rs 79-99): translate, call backend, map
the response, observe labels ("New Order", "success") into
NEW_ORDER_TOTAL_DURATION, increment REQUEST_COUNTER. -/
def new_order (req : NewOrder) (backend : NewOrderRequest → NewOrderResponse)
    (st : MetricsState) : NewOrderRes × MetricsState :=
  let order_request := new_order_translate req
  let response := backend order_request
  let res_to_send := NewOrderRes.fromResponse response
  (res_to_send,
   { st with
     new_order_observations := st.new_order_observations ++ [("New Order", "success")]
     request_counter := st.request_counter + 1 })

/-- Handler of `POST /modify` (main.rs 101-123): translate (panics when
either optional field is absent), call backend, map, observe the mapped
status into MODIFY_ORDER_TOTAL_DURATION, increment REQUEST_COUNTER. -/
def modify_order (req : ModifyOrder)
    (backend : ModifyOrderRequest → ModifyOrderResponse)
    (st : MetricsState) : Option (ModifyOrderRes × MetricsState) :=
  (modify_order_translate req).map fun modify_request =>
    let response := backend modify_request
    let converted_res := ModifyOrderRes.fromResponse response
    (converted_res,
     { st with
       modify_observations := st.modify_observations ++ [toString converted_res.status]
       request_counter := st.request_counter + 1 })

/-- Handler of `POST /cancel` (main.rs 124-138): passthrough translate,
call backend, map, observe the mapped status into
CANCEL_ORDER_TOTAL_DURATION, increment REQUEST_COUNTER. -/
def cancel_order (req : CancelOrder)
    (backend : CancelOrderRequest → CancelOrderResponse)
    (st : MetricsState) : CancelOrderRes × MetricsState :=
  let cancel_request := cancel_order_translate req
  let response := backend cancel_request
  let converted_res := CancelOrderRes.fromResponse response
  (converted_res,
   { st with
     cancel_observations := st.cancel_observations ++ [toString converted_res.status]
     request_counter := st.request_counter + 1 })

/-- Handler of `GET /depth` (main.rs 140-182): translate (panics when
level_count is absent), call backend, increment REQUEST_COUNTER, then
per book presence observe (security_name, 200/400) into
DEPTH_TOTAL_DURATION and return the two-outcome body. -/
def depth (req : DepthReq) (backend : BookRequest → BookResponse)
    (st : MetricsState) : Option (DepthRes × MetricsState) :=
  (depth_translate req).map fun depth_request =>
    let response := backend depth_request
    let book_depth := response.book_depth
    let st := { st with request_counter := st.request_counter + 1 }
    (depth_response book_depth,
     { st with
       depth_observations :=
         st.depth_observations ++ [depth_outcome_label req.security_name book_depth] })

/-! ## Registry, /metric route and startup (main.rs 48-77, 184-188).
`SharedState::new` builds `Registry::new()`; the source contains no
`Registry::register` call, so no collector is ever added to the
registry that the `/metric` route gathers. -/

/-- A metric family as gathered from a prometheus registry, with its
rendered text exposition. -/
structure MetricFamily where
  name : String
  exposition : String
deriving DecidableEq

/-- `prometheus::Registry`: the set of registered collector families. -/
structure Registry where
  families : List MetricFamily
deriving DecidableEq

/-- `Registry::new()`: an empty registry (main.rs 57). -/
def Registry.new : Registry :=
  { families := [] }

/-- `Registry::gather()`: the families of the registered collectors
(main.rs 185). -/
def Registry.gather (r : Registry) : List MetricFamily :=
  r.families

/-- `TextEncoder::encode_to_string`: concatenated text exposition of the
gathered families (main.rs 186-187). -/
def TextEncoder.encode_to_string (metric_families : List MetricFamily) : String :=
  String.join (metric_families.map (fun f => f.exposition))

/-- The gRPC client handle `OrderBookClient<Channel>`, identified by the
address it was connected to. -/
structure OrderBookClient where
  addr : String
deriving DecidableEq

/-- A transport-level connection error. -/
structure ConnError where
  msg : String
deriving DecidableEq

/-- The backend address literal (main.rs 56). -/
def backend_addr : String := "http://[::1]:50051"

/-- The listen address literal (main.rs 74). -/
def listen_addr : String := "127.0.0.1:8000"

/-- `struct SharedState` (main.rs 48-52). -/
structure SharedState where
  client : OrderBookClient
  registry : Registry
deriving DecidableEq

/-- `SharedState::new` (main.rs 54-60): connect to the fixed backend
address (propagating failure with ?) and pair the client with a fresh
empty registry.  The network connect is the environment parameter. -/
def SharedState.new (connect : String → Except ConnError OrderBookClient) :
    Except ConnError SharedState :=
  match connect backend_addr with
  | Except.error e => Except.error e
  | Except.ok client => Except.ok { client := client, registry := Registry.new }

/-- Handler of `GET /metric` (main.rs 184-188): gather the shared
registry and render it with the text encoder. -/
def metric (shared_state : SharedState) : String :=
  TextEncoder.encode_to_string shared_state.registry.gather

/-- The observable startup milestones of `main`, in program order. -/
inductive StartupEvent where
  | backendConnected
  | listenerBound
  | servingStarted
deriving DecidableEq

/-- `main` (main.rs 62-77) as its startup trace: `SharedState::new` runs
first and its failure aborts with ? before any route or listener
exists; only on success is the listener bound and serving started. -/
def main (connect : String → Except ConnError OrderBookClient) :
    Except ConnError (List StartupEvent) :=
  match SharedState.new connect with
  | Except.error e => Except.error e
  | Except.ok _ =>
      Except.ok [StartupEvent.backendConnected, StartupEvent.listenerBound,
                 StartupEvent.servingStarted]

/-! ## Theorems -/

/-- Claim C1: when ModifyOrder carries both new_price and new_quantity and
DepthQuery carries level_count, the translator maps a literal 0 in each
optional field to absent and any value above 0 to present of that value,
each field independently, and forwards every other field unaltered. -/
theorem sentinel_normalization_modify_depth
    (mreq : ModifyOrder) (p q : Nat)
    (hp : mreq.new_price = some p) (hq : mreq.new_quantity = some q)
    (dreq : DepthReq) (l : Nat) (hl : dreq.level_count = some l) :
    (∃ r, modify_order_translate mreq = some r ∧
       r.new_price = (if p = 0 then none else some p) ∧
       r.new_quantity = (if q = 0 then none else some q) ∧
       r.order_id = mreq.order_id ∧
       r.side = mreq.is_buy_side) ∧
    (∃ b, depth_translate dreq = some b ∧
       b.level_count = (if l = 0 then none else some l) ∧
       b.security_name = dreq.security_name) := by
  constructor
  · refine ⟨{ order_id := mreq.order_id
              new_price := if p = 0 then none else some p
              new_quantity := if q = 0 then none else some q
              side := mreq.is_buy_side }, ?_, rfl, rfl, rfl, rfl⟩
    simp [modify_order_translate, normalize_sentinel, hp, hq]
  · refine ⟨{ security_name := dreq.security_name
              level_count := if l = 0 then none else some l }, ?_, rfl, rfl⟩
    simp [depth_translate, normalize_sentinel, hl]

/-- Witness for C1 at the spec scenario: modify with new_price 0 and
new_quantity 5, depth with level_count 0. -/
theorem sentinel_normalization_modify_depth_witness :
    ({ order_id := "X", new_price := some 0, new_quantity := some 5,
       is_buy_side := true } : ModifyOrder).new_price = some 0 ∧
    ({ order_id := "X", new_price := some 0, new_quantity := some 5,
       is_buy_side := true } : ModifyOrder).new_quantity = some 5 ∧
    ({ security_name := "MSFT", level_count := some 0 } : DepthReq).level_count
      = some 0 ∧
    ((∃ r, modify_order_translate
        { order_id := "X", new_price := some 0, new_quantity := some 5,
          is_buy_side := true } = some r ∧
       r.new_price = (if 0 = 0 then none else some 0) ∧
       r.new_quantity = (if 5 = 0 then none else some 5) ∧
       r.order_id = "X" ∧
       r.side = true) ∧
    (∃ b, depth_translate { security_name := "MSFT", level_count := some 0 }
        = some b ∧
       b.level_count = (if 0 = 0 then none else some 0) ∧
       b.security_name = "MSFT")) :=
  ⟨rfl, rfl, rfl,
   sentinel_normalization_modify_depth
     { order_id := "X", new_price := some 0, new_quantity := some 5,
       is_buy_side := true } 0 5 rfl rfl
     { security_name := "MSFT", level_count := some 0 } 0 rfl⟩

/-- Claim C2: the depth handler body returns exactly one of two outcomes
per book presence: a present book yields status 200 with the success
message, an absent book yields status 400 with "orderbook is empty";
in particular a 200 success never occurs with an absent book. -/
theorem depth_two_outcome_contract (bd : Option Book) :
    (bd ≠ none ∧ depth_response bd = { status := 200, output := "book recieved" }) ∨
    (bd = none ∧ depth_response bd = { status := 400, output := "orderbook is empty" }) := by
  cases bd with
  | none => exact Or.inr ⟨rfl, rfl⟩
  | some b => exact Or.inl ⟨by simp, rfl⟩

/-- Claim C3: each response mapper copies the RPC response fields
one-for-one into the DTO with no recomputation; CancelOrderRes.output is
sourced from the RPC cause field. -/
theorem response_mapper_copies_fields
    (n : NewOrderResponse) (m : ModifyOrderResponse) (c : CancelOrderResponse) :
    NewOrderRes.fromResponse n =
      { order_id := n.order_id, status := n.status,
        order_index := n.order_index, cause := n.cause } ∧
    ModifyOrderRes.fromResponse m =
      { order_id := m.order_id, status := m.status, output := m.output } ∧
    CancelOrderRes.fromResponse c =
      { order_id := c.order_id, status := c.status, output := c.cause } :=
  ⟨rfl, rfl, rfl⟩

/-- Claim C4: every NewOrder request, whatever its price, quantity or
side, is forwarded with the market order type; in particular every
request with price absent is. -/
theorem new_order_always_market (req : NewOrder) :
    (new_order_translate req).order_type = OrderType.market := rfl

/-- Claim C5: each of the four business handlers increments the request
counter by exactly 1 per completed request, whatever the backend
response (success or domain rejection), so the counter never
decreases. -/
theorem request_counter_increments_by_one
    (nreq : NewOrder) (nb : NewOrderRequest → NewOrderResponse)
    (mreq : ModifyOrder) (mb : ModifyOrderRequest → ModifyOrderResponse)
    (creq : CancelOrder) (cb : CancelOrderRequest → CancelOrderResponse)
    (dreq : DepthReq) (db : BookRequest → BookResponse)
    (st : MetricsState) :
    (new_order nreq nb st).2.request_counter = st.request_counter + 1 ∧
    (modify_order mreq mb st).map (fun out => out.2.request_counter)
      = (modify_order mreq mb st).map (fun _ => st.request_counter + 1) ∧
    (cancel_order creq cb st).2.request_counter = st.request_counter + 1 ∧
    (depth dreq db st).map (fun out => out.2.request_counter)
      = (depth dreq db st).map (fun _ => st.request_counter + 1) ∧
    st.request_counter ≤ (new_order nreq nb st).2.request_counter := by
  refine ⟨rfl, ?_, rfl, ?_, Nat.le_succ _⟩
  · cases h : modify_order_translate mreq with
    | none => simp [modify_order, h]
    | some a => simp [modify_order, h]
  · cases h : depth_translate dreq with
    | none => simp [depth, h]
    | some a => simp [depth, h]

/-- Claim C6 (code bug): SharedState.new builds an empty registry and no
collector is ever registered into it, so the /metric route gathers no
family at all and renders the empty string, even though the gateway
defines five metric families it records into; no observation ever
appears in the scrape output. -/
theorem metric_scrape_renders_no_family (c : OrderBookClient) :
    SharedState.new (fun _ => Except.ok c)
      = Except.ok { client := c, registry := Registry.new } ∧
    Registry.new.gather = [] ∧
    metric { client := c, registry := Registry.new } = "" ∧
    gateway_metric_family_names ≠ [] :=
  ⟨rfl, rfl, rfl, by simp [gateway_metric_family_names]⟩

/-- Counterexample to claim C7 as stated: an inbound NewOrder with a
literal 0 price is forwarded with the price still present as 0, not
translated to absent. -/
theorem new_order_zero_price_forwarded_present :
    (new_order_translate
       { price := some 0, quantity := 5, is_buy_side := true,
         security_name := "AAPL" }).price = some 0 ∧
    (some 0 : Option Nat) ≠ none :=
  ⟨rfl, by simp⟩

/-- Claim C7 as amended: the 0-as-absent sentinel is applied exactly once
at the boundary to ModifyOrder.new_price, ModifyOrder.new_quantity and
DepthReq.level_count, but NOT to NewOrder.price, which is forwarded
verbatim into the RPC request (an inbound 0 stays present). -/
theorem sentinel_scope_excludes_new_order_price
    (nreq : NewOrder) (oid name : String) (side : Bool) (q v : Nat) :
    (new_order_translate nreq).price = nreq.price ∧
    (modify_order_translate
        { order_id := oid, new_price := some 0, new_quantity := some (q + 1),
          is_buy_side := side }).map (fun r => (r.new_price, r.new_quantity))
      = some (none, some (q + 1)) ∧
    (depth_translate { security_name := name, level_count := some 0 }).map
        (fun b => b.level_count) = some none ∧
    normalize_sentinel (some 0) = some none ∧
    normalize_sentinel (some (v + 1)) = some (some (v + 1)) :=
  ⟨rfl, rfl, rfl, rfl, rfl⟩

/-- Counterexample to claim C8 as stated: the new-order handler records
the fixed label pair ("New Order", "success") even when the backend
response carries a rejection status 400, so the status label does not
reflect the actual outcome. -/
theorem new_order_label_ignores_outcome :
    (new_order
       { price := none, quantity := 10, is_buy_side := true,
         security_name := "AAPL" }
       (fun _ => { order_id := "o1", status := 400, order_index := none,
                   cause := some "rejected" })
       MetricsState.initial).2.new_order_observations
      = [("New Order", "success")] ∧
    "success" ≠ toString (400 : Nat) :=
  ⟨rfl, by decide⟩

/-- Claim C8 as amended: every completed request records exactly one
latency observation after the backend call resolves; modify and cancel
record the mapped response status, depth records the security name with
200 or 400 according to book presence, but new-order always records the
fixed labels ("New Order", "success") regardless of the response. -/
theorem latency_observation_labels
    (nreq : NewOrder) (nb : NewOrderRequest → NewOrderResponse)
    (mreq : ModifyOrder) (mb : ModifyOrderRequest → ModifyOrderResponse)
    (creq : CancelOrder) (cb : CancelOrderRequest → CancelOrderResponse)
    (dreq : DepthReq) (db : BookRequest → BookResponse)
    (st : MetricsState) :
    (new_order nreq nb st).2.new_order_observations
      = st.new_order_observations ++ [("New Order", "success")] ∧
    (modify_order mreq mb st).map (fun out => out.2.modify_observations)
      = (modify_order mreq mb st).map
          (fun out => st.modify_observations ++ [toString out.1.status]) ∧
    (cancel_order creq cb st).2.cancel_observations
      = st.cancel_observations ++ [toString (cancel_order creq cb st).1.status] ∧
    (depth dreq db st).map (fun out => out.2.depth_observations)
      = (depth_translate dreq).map
          (fun breq => st.depth_observations ++
            [depth_outcome_label dreq.security_name (db breq).book_depth]) := by
  refine ⟨rfl, ?_, rfl, ?_⟩
  · cases h : modify_order_translate mreq with
    | none => simp [modify_order, h]
    | some a => simp [modify_order, h]
  · cases h : depth_translate dreq with
    | none => simp [depth, h]
    | some a => simp [depth, h]

/-- Claim C9: main establishes the backend connection first; a connect
failure aborts startup with that error before the listener is bound or
serving starts, and only a successful connect reaches the bind-then-
serve sequence. -/
theorem startup_fatal_without_backend (e : ConnError) (c : OrderBookClient) :
    main (fun _ => Except.error e) = Except.error e ∧
    main (fun _ => Except.ok c) =
      Except.ok [StartupEvent.backendConnected, StartupEvent.listenerBound,
                 StartupEvent.servingStarted] :=
  ⟨rfl, rfl⟩

/-- Claim C10: when ModifyOrder lacks new_price or new_quantity, or
DepthQuery lacks level_count, the sentinel normalization unwraps a None
and panics, so the translation (and with it the whole handler) never
produces an RPC request with the field absent: the optional fields are
effectively mandatory. -/
theorem absent_optional_field_panics
    (mreq : ModifyOrder) (dreq : DepthReq)
    (mb : ModifyOrderRequest → ModifyOrderResponse)
    (db : BookRequest → BookResponse) (st : MetricsState)
    (hm : mreq.new_price = none ∨ mreq.new_quantity = none)
    (hd : dreq.level_count = none) :
    modify_order_translate mreq = none ∧
    depth_translate dreq = none ∧
    modify_order mreq mb st = none ∧
    depth dreq db st = none := by
  have hmt : modify_order_translate mreq = none := by
    rcases hm with h | h
    · simp [modify_order_translate, normalize_sentinel, h]
    · cases hp : mreq.new_price with
      | none => simp [modify_order_translate, normalize_sentinel, hp]
      | some p => simp [modify_order_translate, normalize_sentinel, hp, h]
  have hdt : depth_translate dreq = none := by
    simp [depth_translate, normalize_sentinel, hd]
  exact ⟨hmt, hdt, by simp [modify_order, hmt], by simp [depth, hdt]⟩

/-- Witness for C10: a modify body without new_price and a depth body
without level_count both panic instead of forwarding absent. -/
theorem absent_optional_field_panics_witness :
    (({ order_id := "X", new_price := none, new_quantity := some 5,
        is_buy_side := true } : ModifyOrder).new_price = none ∨
     ({ order_id := "X", new_price := none, new_quantity := some 5,
        is_buy_side := true } : ModifyOrder).new_quantity = none) ∧
    ({ security_name := "AAPL", level_count := none } : DepthReq).level_count
      = none ∧
    (modify_order_translate
       { order_id := "X", new_price := none, new_quantity := some 5,
         is_buy_side := true } = none ∧
     depth_translate { security_name := "AAPL", level_count := none } = none ∧
     modify_order
       { order_id := "X", new_price := none, new_quantity := some 5,
         is_buy_side := true }
       (fun r => { order_id := r.order_id, status := 200, output := none })
       MetricsState.initial = none ∧
     depth { security_name := "AAPL", level_count := none }
       (fun _ => { book_depth := none }) MetricsState.initial = none) :=
  ⟨Or.inl rfl, rfl,
   absent_optional_field_panics
     { order_id := "X", new_price := none, new_quantity := some 5,
       is_buy_side := true }
     { security_name := "AAPL", level_count := none }
     (fun r => { order_id := r.order_id, status := 200, output := none })
     (fun _ => { book_depth := none }) MetricsState.initial
     (Or.inl rfl) rfl⟩

end TradingApiServer
